import Mathlib

/-!
Shallow embedding of the DEM (Data Exchange Matrix) API client from
`src/lib/dem-client.ts` of the bit-wise-trust repository, together with
theorems settling the behavioural claims about it.

Modelling decisions:
* Numeric literals of the mock payloads are embedded as rationals, reading
  the decimal literals of the source exactly.
* The JS string method `String.prototype.includes` is embedded as a
  contiguous-substring scan over the character lists of the strings.
* The TypeScript `ApiResponse<T>` wrapper becomes a structure with two
  `Option` fields; the four distinct mock payload shapes are collected in
  one sum type `MockData`.
* The mutable `config : DemConfig | null` field of the client becomes an
  explicit `Option DemConfig` argument threaded through the request
  methods, and `updateConfig` becomes a state transformer on it.
* `signRequest` only builds request headers (never read by the mock path,
  which receives the original unsigned options, line 91 of the source) and
  cannot fail, so the embedded `fetch` goes directly to the mock dispatch;
  the dead `catch` branch of the source is consequently not represented.
-/

namespace Dem

/-- `DemConfig` of dem-client.ts: endpoint and credential record. -/
structure DemConfig where
  baseUrl : String
  region : String
  accessKey : String
  secretKey : String
deriving DecidableEq, Repr

/-- `Partial<DemConfig>`: every field optionally present. `none` models an
absent key of the partial object. -/
structure PartialDemConfig where
  baseUrl : Option String := none
  region : Option String := none
  accessKey : Option String := none
  secretKey : Option String := none
deriving DecidableEq, Repr

/-- The `km` field of `SurvivalData`: Kaplan-Meier curve. -/
structure KmCurve where
  t : List ℚ
  s : List ℚ
deriving DecidableEq, Repr

/-- The `hazard` field of `SurvivalData`. -/
structure HazardCurve where
  t : List ℚ
  h : List ℚ
deriving DecidableEq, Repr

/-- The `percentiles` field of `SurvivalData`. -/
structure Percentiles where
  p10 : ℚ
  p50 : ℚ
  p90 : ℚ
deriving DecidableEq, Repr

/-- `SurvivalData` of dem-client.ts. -/
structure SurvivalData where
  km : KmCurve
  hazard : HazardCurve
  percentiles : Percentiles
  n : ℚ
  censored : ℚ
deriving DecidableEq, Repr

/-- `PredictionData` of dem-client.ts; the `atHorizons` record becomes an
association list keeping the insertion order of the object literal. -/
structure PredictionData where
  t : List ℚ
  s : List ℚ
  atHorizons : List (String × ℚ)
deriving DecidableEq, Repr

/-- `ComplementStats` of dem-client.ts. -/
structure ComplementStats where
  feature : String
  failed_mean : ℚ
  complement_mean : ℚ
  delta_mean : ℚ
  failed_iqr : ℚ × ℚ
  complement_iqr : ℚ × ℚ
  delta_iqr : ℚ
deriving DecidableEq, Repr

/-- One binned series of `TDigestData`. -/
structure BinSeries where
  bins : List ℚ
  counts : List ℚ
deriving DecidableEq, Repr

/-- `TDigestData` of dem-client.ts. -/
structure TDigestData where
  failed : BinSeries
  survived : BinSeries
deriving DecidableEq, Repr

/-- The four payload shapes the mock dispatch can return. -/
inductive MockData where
  | survival (d : SurvivalData)
  | prediction (d : PredictionData)
  | complements (l : List ComplementStats)
  | tdigest (d : TDigestData)
deriving DecidableEq, Repr

/-- `ApiResponse<T>`: optional data payload and optional error string. -/
structure ApiResponse where
  data : Option MockData := none
  error : Option String := none
deriving DecidableEq, Repr

/-- The serialized request body (`JSON.stringify` argument) of each
POST-issuing method. The mock dispatch never reads it; the cohort filter
and the per-scenario feature values are opaque (`any` in the source) and
are modelled as strings. -/
inductive Body where
  | aggregate (cohort : String) (metrics : List String) (horizons : List ℚ)
  | complementStats (cohort : String) (condition : String) (features : List String)
  | tdigest (feature : String) (classBy : String) (bins : ℚ)
  | train (algo : String) (label : String) (censor : String)
      (features : List String) (cohort : String)
  | predict (modelId : String) (features : String) (horizons : List ℚ)
deriving DecidableEq, Repr

/-- `RequestInit` as used by the client: HTTP method and optional body. -/
structure RequestInit where
  method : String := "GET"
  body : Option Body := none
deriving DecidableEq, Repr

/-- `sub` is a prefix of `l` (character-wise, Boolean). -/
def isPrefOf : List Char → List Char → Bool
  | [], _ => true
  | _ :: _, [] => false
  | a :: as, b :: bs => a == b && isPrefOf as bs

/-- `sub` occurs contiguously somewhere in `l` (Boolean). -/
def hasSub (sub : List Char) : List Char → Bool
  | [] => isPrefOf sub []
  | b :: bs => isPrefOf sub (b :: bs) || hasSub sub bs

/-- JS `path.includes(sub)`: `sub` is a contiguous substring of `path`. -/
def includes (path sub : String) : Bool :=
  hasSub sub.data path.data

/-- The canned `mockSurvival` payload of `getMockResponse`. -/
def mockSurvival : SurvivalData :=
  { km :=
      { t := [0, 10, 20, 30, 40, 50, 60, 70, 80, 90, 100, 110, 120, 130, 140, 150]
        s := [1.0, 0.98, 0.95, 0.92, 0.88, 0.83, 0.78, 0.72, 0.66, 0.59, 0.52,
              0.45, 0.38, 0.31, 0.24, 0.18] }
    hazard :=
      { t := [0, 10, 20, 30, 40, 50, 60, 70, 80, 90, 100, 110, 120, 130, 140, 150]
        h := [0.02, 0.022, 0.025, 0.028, 0.032, 0.036, 0.041, 0.047, 0.053,
              0.060, 0.068, 0.077, 0.087, 0.098, 0.111, 0.125] }
    percentiles := { p10 := 35, p50 := 89, p90 := 145 }
    n := 1542
    censored := 0.31 }

/-- The canned `mockPrediction` payload of `getMockResponse`. -/
def mockPrediction : PredictionData :=
  { t := [0, 10, 20, 30, 40, 50, 60, 70, 80, 90, 100, 110, 120, 130, 140, 150]
    s := [1.0, 0.97, 0.94, 0.90, 0.85, 0.80, 0.74, 0.68, 0.62, 0.55, 0.48,
          0.42, 0.35, 0.29, 0.23, 0.18]
    atHorizons := [("10", 0.97), ("50", 0.80), ("100", 0.48), ("150", 0.18)] }

/-- First entry of the canned `mockStats` list (feature RPM). -/
def rpmStat : ComplementStats :=
  { feature := "RPM", failed_mean := 180.5, complement_mean := 165.2,
    delta_mean := 15.3, failed_iqr := (150, 210), complement_iqr := (140, 190),
    delta_iqr := 10 }

/-- Second entry of the canned `mockStats` list (feature WOB). -/
def wobStat : ComplementStats :=
  { feature := "WOB", failed_mean := 25.8, complement_mean := 22.1,
    delta_mean := 3.7, failed_iqr := (20, 30), complement_iqr := (18, 26),
    delta_iqr := 2 }

/-- Third entry of the canned `mockStats` list (feature ROP). -/
def ropStat : ComplementStats :=
  { feature := "ROP", failed_mean := 45.2, complement_mean := 38.6,
    delta_mean := 6.6, failed_iqr := (35, 55), complement_iqr := (30, 47),
    delta_iqr := 5 }

/-- The canned `mockStats` payload of `getMockResponse`. -/
def mockStats : List ComplementStats := [rpmStat, wobStat, ropStat]

/-- The canned `mockTDigest` payload of `getMockResponse`. -/
def mockTDigest : TDigestData :=
  { failed :=
      { bins := [140, 150, 160, 170, 180, 190, 200, 210, 220]
        counts := [12, 28, 45, 67, 89, 76, 54, 32, 18] }
    survived :=
      { bins := [130, 140, 150, 160, 170, 180, 190, 200, 210]
        counts := [18, 42, 78, 112, 134, 98, 67, 34, 15] } }

/-- The error message of the fall-through branch of `getMockResponse`. -/
def notImplementedMsg : String := "Mock endpoint not implemented"

/-- `DemClient.getMockResponse`: ordered substring dispatch over the path.
The `options` argument is received but never read, exactly as in the
source. -/
def getMockResponse (path : String) (_options : RequestInit) : ApiResponse :=
  if includes path "/federation/aggregate" then
    { data := some (.survival mockSurvival) }
  else if includes path "/models/survival/predict" then
    { data := some (.prediction mockPrediction) }
  else if includes path "/exploration/complement-stats" then
    { data := some (.complements mockStats) }
  else if includes path "/exploration/conditional-tdigest" then
    { data := some (.tdigest mockTDigest) }
  else
    { error := some notImplementedMsg }

/-- The error message of the unconfigured branch of `DemClient.fetch`. -/
def notConfiguredMsg : String :=
  "DEM client not configured. Please check environment variables."

/-- `DemClient.fetch`: guard on the configuration, then mock dispatch. -/
def fetch (config : Option DemConfig) (path : String) (options : RequestInit) :
    ApiResponse :=
  match config with
  | none => { error := some notConfiguredMsg }
  | some _ => getMockResponse path options

/-- Path built by `getFederationPeers`. -/
def peersPath (projectId : String) : String :=
  "/api/v1/projects/" ++ projectId ++ "/federation/peers"

/-- Path built by `aggregateData`. -/
def aggregatePath (projectId : String) : String :=
  "/api/v1/projects/" ++ projectId ++ "/federation/aggregate"

/-- Path built by `getComplementStats`. -/
def complementStatsPath (projectId : String) : String :=
  "/api/v1/projects/" ++ projectId ++ "/exploration/complement-stats"

/-- Path built by `getConditionalTDigest`. -/
def tdigestPath (projectId : String) : String :=
  "/api/v1/projects/" ++ projectId ++ "/exploration/conditional-tdigest"

/-- Path built by `trainSurvivalModel`. -/
def trainPath (projectId : String) : String :=
  "/api/v1/projects/" ++ projectId ++ "/models/survival/train"

/-- Path built by `predictSurvival`. -/
def predictPath (projectId : String) : String :=
  "/api/v1/projects/" ++ projectId ++ "/models/survival/predict"

/-- `DemClient.getFederationPeers`. -/
def getFederationPeers (config : Option DemConfig) (projectId : String) :
    ApiResponse :=
  fetch config (peersPath projectId) {}

/-- `DemClient.aggregateData`. -/
def aggregateData (config : Option DemConfig) (projectId : String)
    (cohort : String) (metrics : List String) (horizons : List ℚ) :
    ApiResponse :=
  fetch config (aggregatePath projectId)
    { method := "POST", body := some (.aggregate cohort metrics horizons) }

/-- `DemClient.getComplementStats`. -/
def getComplementStats (config : Option DemConfig) (projectId : String)
    (cohort : String) (condition : String) (features : List String) :
    ApiResponse :=
  fetch config (complementStatsPath projectId)
    { method := "POST", body := some (.complementStats cohort condition features) }

/-- `DemClient.getConditionalTDigest`. -/
def getConditionalTDigest (config : Option DemConfig) (projectId : String)
    (feature : String) (classBy : String) (bins : ℚ) : ApiResponse :=
  fetch config (tdigestPath projectId)
    { method := "POST", body := some (.tdigest feature classBy bins) }

/-- `DemClient.trainSurvivalModel`. -/
def trainSurvivalModel (config : Option DemConfig) (projectId : String)
    (algo : String) (label : String) (censor : String)
    (features : List String) (cohort : String) : ApiResponse :=
  fetch config (trainPath projectId)
    { method := "POST", body := some (.train algo label censor features cohort) }

/-- `DemClient.predictSurvival`. -/
def predictSurvival (config : Option DemConfig) (projectId : String)
    (modelId : String) (features : String) (horizons : List ℚ) : ApiResponse :=
  fetch config (predictPath projectId)
    { method := "POST", body := some (.predict modelId features horizons) }

/-- `DemClient.isConfigured`. -/
def isConfigured (config : Option DemConfig) : Bool :=
  config.isSome

/-- The spread `{ ...this.config, ...config }`: every field present in the
partial object overrides, every absent field keeps its prior value. -/
def mergeConfig (c : DemConfig) (p : PartialDemConfig) : DemConfig :=
  { baseUrl := p.baseUrl.getD c.baseUrl
    region := p.region.getD c.region
    accessKey := p.accessKey.getD c.accessKey
    secretKey := p.secretKey.getD c.secretKey }

/-- `DemClient.updateConfig`: merge when configured, no-op otherwise. -/
def updateConfig (config : Option DemConfig) (p : PartialDemConfig) :
    Option DemConfig :=
  match config with
  | none => none
  | some c => some (mergeConfig c p)

/-- The record `initializeConfig` installs in the constructor. -/
def initialConfig : DemConfig :=
  { baseUrl := "https://api.nextmatrix.demo"
    region := "us-west-2"
    accessKey := "mock-access-key"
    secretKey := "mock-secret-key" }

/-- Configuration state of the exported singleton `demClient` right after
construction. -/
def demClientInit : Option DemConfig := some initialConfig

/-- A response has exactly one of its data and error fields populated. -/
def exactlyOneOf (r : ApiResponse) : Prop :=
  (r.data.isSome = true ∧ r.error = none) ∨
    (r.data = none ∧ r.error.isSome = true)

/-- None of the four wired dispatch substrings occurs in the path. -/
def matchesNone (path : String) : Bool :=
  !(includes path "/federation/aggregate") &&
    !(includes path "/models/survival/predict") &&
    !(includes path "/exploration/complement-stats") &&
    !(includes path "/exploration/conditional-tdigest")

/-- The list of horizon keys of the response, when the response carries a
prediction payload; `none` when it carries no prediction payload at all. -/
def predictionKeys (r : ApiResponse) : Option (List String) :=
  match r.data with
  | some (.prediction p) => some (p.atHorizons.map Prod.fst)
  | _ => none

/-- Decimal digit string to natural number (reads the horizon keys). -/
def digitsToNat (cs : List Char) : ℕ :=
  cs.foldl (fun n c => 10 * n + (c.toNat - Char.toNat '0')) 0

/-- A horizon key parsed as a number. -/
def parseKey (k : String) : ℚ :=
  (digitsToNat k.data : ℚ)

/-! Helper lemmas about the substring scan. -/

/-- Every character list is a prefix of itself extended on the right. -/
theorem isPrefOf_append (s r : List Char) : isPrefOf s (s ++ r) = true := by
  induction s with
  | nil => rfl
  | cons a as ih => simp [isPrefOf, ih]

/-- A substring of the right part occurs in the whole concatenation. -/
theorem hasSub_append_right (sub l₁ l₂ : List Char) (h : hasSub sub l₂ = true) :
    hasSub sub (l₁ ++ l₂) = true := by
  induction l₁ with
  | nil => simpa using h
  | cons a as ih => simp [hasSub, ih]

/-- A character list occurs in itself extended on the right. -/
theorem hasSub_self_append (sub r : List Char) : hasSub sub (sub ++ r) = true := by
  cases sub with
  | nil => cases r <;> simp [hasSub, isPrefOf]
  | cons a as => simp [hasSub, isPrefOf, isPrefOf_append]

/-- A string always includes its own suffix. -/
theorem includes_append_right (pre sub : String) : includes (pre ++ sub) sub = true := by
  unfold includes
  rw [String.data_append]
  exact hasSub_append_right _ _ _ (by simpa using hasSub_self_append sub.data [])

/-- The aggregate path always triggers the first dispatch branch. -/
theorem includes_aggregatePath (pid : String) :
    includes (aggregatePath pid) "/federation/aggregate" = true :=
  includes_append_right ("/api/v1/projects/" ++ pid) "/federation/aggregate"

/-- The predict path always contains the predict dispatch substring. -/
theorem includes_predictPath (pid : String) :
    includes (predictPath pid) "/models/survival/predict" = true :=
  includes_append_right ("/api/v1/projects/" ++ pid) "/models/survival/predict"

/-- The complement-stats path always contains its dispatch substring. -/
theorem includes_complementStatsPath (pid : String) :
    includes (complementStatsPath pid) "/exploration/complement-stats" = true :=
  includes_append_right ("/api/v1/projects/" ++ pid) "/exploration/complement-stats"

/-! Helper lemmas about fetch and the mock dispatch. -/

/-- Every fetch result populates exactly one of data and error. -/
theorem exactlyOneOf_fetch (cfg : Option DemConfig) (path : String)
    (opts : RequestInit) : exactlyOneOf (fetch cfg path opts) := by
  cases cfg with
  | none => exact Or.inr ⟨rfl, rfl⟩
  | some c =>
    show exactlyOneOf (getMockResponse path opts)
    unfold getMockResponse
    split_ifs <;> first | exact Or.inl ⟨rfl, rfl⟩ | exact Or.inr ⟨rfl, rfl⟩

/-- The fetch result never depends on the request options. -/
theorem fetch_ignores_options (cfg : Option DemConfig) (path : String)
    (o₁ o₂ : RequestInit) : fetch cfg path o₁ = fetch cfg path o₂ := by
  cases cfg <;> rfl

/-- A path matching none of the four wired substrings falls through to the
not-implemented error response. -/
theorem getMockResponse_fallthrough (path : String) (opts : RequestInit)
    (h : matchesNone path = true) :
    getMockResponse path opts = { error := some notImplementedMsg } := by
  simp only [matchesNone, Bool.and_eq_true, Bool.not_eq_true'] at h
  obtain ⟨⟨⟨h₁, h₂⟩, h₃⟩, h₄⟩ := h
  simp [getMockResponse, h₁, h₂, h₃, h₄]

/-- Any sequence of configuration updates keeps the configuration present. -/
theorem foldl_updateConfig_some (ops : List PartialDemConfig) :
    ∀ c : DemConfig, ∃ c', ops.foldl updateConfig (some c) = some c' := by
  induction ops with
  | nil => exact fun c => ⟨c, rfl⟩
  | cons p ops ih =>
    intro c
    simpa [List.foldl_cons, updateConfig] using ih (mergeConfig c p)

/-! Claim theorems. -/

/-- Claim C1: every public request method, on every configuration state and
every input, returns a response wrapper in which exactly one of the data
field and the error field is populated — never both, never neither. -/
theorem requestMethods_exactlyOneOf :
    (∀ cfg pid, exactlyOneOf (getFederationPeers cfg pid)) ∧
    (∀ cfg pid coh ms hs, exactlyOneOf (aggregateData cfg pid coh ms hs)) ∧
    (∀ cfg pid coh cond fs, exactlyOneOf (getComplementStats cfg pid coh cond fs)) ∧
    (∀ cfg pid f cb b, exactlyOneOf (getConditionalTDigest cfg pid f cb b)) ∧
    (∀ cfg pid a l ce fs coh, exactlyOneOf (trainSurvivalModel cfg pid a l ce fs coh)) ∧
    (∀ cfg pid mid fv hs, exactlyOneOf (predictSurvival cfg pid mid fv hs)) :=
  ⟨fun cfg _ => exactlyOneOf_fetch cfg _ _,
   fun cfg _ _ _ _ => exactlyOneOf_fetch cfg _ _,
   fun cfg _ _ _ _ => exactlyOneOf_fetch cfg _ _,
   fun cfg _ _ _ _ => exactlyOneOf_fetch cfg _ _,
   fun cfg _ _ _ _ _ _ => exactlyOneOf_fetch cfg _ _,
   fun cfg _ _ _ _ => exactlyOneOf_fetch cfg _ _⟩

/-- Claim C2 (counterexample): a trainSurvivalModel call with the concrete
projectId "/federation/aggregate" does not return the not-implemented
error — the first dispatch branch fires on the substring smuggled in
through the projectId and the canned survival payload is returned. -/
theorem trainCall_adversarial_projectId :
    (trainSurvivalModel (some initialConfig) "/federation/aggregate" "weibull"
        "lifetime" "censored" [] "cohort").error ≠ some notImplementedMsg ∧
    (trainSurvivalModel (some initialConfig) "/federation/aggregate" "weibull"
        "lifetime" "censored" [] "cohort").data = some (.survival mockSurvival) :=
  ⟨by decide, rfl⟩

/-- Claim C2 (amended): the mock dispatch is total on path strings and
returns the error message "Mock endpoint not implemented" for every path
matching none of the four wired substrings; in particular every
trainSurvivalModel call and every getFederationPeers call whose built path
matches none of the four wired substrings returns exactly that error. -/
theorem mock_fallthrough_notImplemented :
    (∀ path opts, matchesNone path = true →
        getMockResponse path opts = { error := some notImplementedMsg }) ∧
    (∀ (c : DemConfig) pid algo label censor fs coh,
        matchesNone (trainPath pid) = true →
        trainSurvivalModel (some c) pid algo label censor fs coh
          = { error := some notImplementedMsg }) ∧
    (∀ (c : DemConfig) pid, matchesNone (peersPath pid) = true →
        getFederationPeers (some c) pid = { error := some notImplementedMsg }) := by
  refine ⟨fun path opts h => getMockResponse_fallthrough path opts h, ?_, ?_⟩
  · intro c pid algo label censor fs coh h
    exact getMockResponse_fallthrough (trainPath pid)
      { method := "POST", body := some (.train algo label censor fs coh) } h
  · intro c pid h
    exact getMockResponse_fallthrough (peersPath pid) {} h

/-- Claim C2 (witness): the amended theorem applied at concrete inputs. -/
theorem mock_fallthrough_notImplemented_witness :
    matchesNone "/api/v1/projects/p1/models/survival/train" = true ∧
    matchesNone (trainPath "p1") = true ∧
    matchesNone (peersPath "p1") = true ∧
    getMockResponse "/api/v1/projects/p1/models/survival/train" {}
      = { error := some notImplementedMsg } ∧
    trainSurvivalModel (some initialConfig) "p1" "weibull" "lifetime" "censored"
        [] "cohort" = { error := some notImplementedMsg } ∧
    getFederationPeers (some initialConfig) "p1"
      = { error := some notImplementedMsg } :=
  ⟨by decide, by decide, by decide,
   mock_fallthrough_notImplemented.1 "/api/v1/projects/p1/models/survival/train"
     {} (by decide),
   mock_fallthrough_notImplemented.2.1 initialConfig "p1" "weibull" "lifetime"
     "censored" [] "cohort" (by decide),
   mock_fallthrough_notImplemented.2.2 initialConfig "p1" (by decide)⟩

/-- Claim C3: with an absent configuration, every request method
immediately returns the not-configured error response, whose message is
non-empty and contains "client not configured", with no data field. -/
theorem unconfigured_immediate_error :
    (∀ pid, getFederationPeers none pid
        = { data := none, error := some notConfiguredMsg }) ∧
    (∀ pid coh ms hs, aggregateData none pid coh ms hs
        = { data := none, error := some notConfiguredMsg }) ∧
    (∀ pid coh cond fs, getComplementStats none pid coh cond fs
        = { data := none, error := some notConfiguredMsg }) ∧
    (∀ pid f cb b, getConditionalTDigest none pid f cb b
        = { data := none, error := some notConfiguredMsg }) ∧
    (∀ pid a l ce fs coh, trainSurvivalModel none pid a l ce fs coh
        = { data := none, error := some notConfiguredMsg }) ∧
    (∀ pid mid fv hs, predictSurvival none pid mid fv hs
        = { data := none, error := some notConfiguredMsg }) ∧
    notConfiguredMsg ≠ "" ∧
    includes notConfiguredMsg "client not configured" = true :=
  ⟨fun _ => rfl, fun _ _ _ _ => rfl, fun _ _ _ _ => rfl, fun _ _ _ _ => rfl,
   fun _ _ _ _ _ _ => rfl, fun _ _ _ _ => rfl, by decide, by decide⟩

/-- Claim C4: for every projectId and any cohort filter, metric names and
horizons, aggregateData returns a survival summary whose km time and value
arrays have equal length, whose hazard time and value arrays have equal
length, and whose two time arrays are strictly increasing (hence in
particular non-decreasing). -/
theorem aggregate_summary_wellFormed :
    ∀ (c : DemConfig) (pid cohort : String) (metrics : List String)
      (horizons : List ℚ),
      ∃ d : SurvivalData,
        (aggregateData (some c) pid cohort metrics horizons).data
            = some (.survival d) ∧
        d.km.t.length = d.km.s.length ∧
        d.hazard.t.length = d.hazard.h.length ∧
        List.Chain' (· < ·) d.km.t ∧
        List.Chain' (· < ·) d.hazard.t := by
  intro c pid cohort metrics horizons
  refine ⟨mockSurvival, ?_, by simp [mockSurvival], by simp [mockSurvival], ?_, ?_⟩
  · simp [aggregateData, fetch, getMockResponse, includes_aggregatePath]
  · simp only [mockSurvival, List.chain'_cons, List.chain'_singleton]
    norm_num
  · simp only [mockSurvival, List.chain'_cons, List.chain'_singleton]
    norm_num

/-- Claim C5 (counterexample): invoked with the concrete projectId
"/federation/aggregate" and horizons [10, 50, 100, 150], predictSurvival
returns the canned survival payload instead of a prediction payload, so no
atHorizons mapping is present at all. -/
theorem predict_adversarial_projectId :
    predictionKeys (predictSurvival (some initialConfig) "/federation/aggregate"
        "m1" "fv" [10, 50, 100, 150]) = none ∧
    (predictSurvival (some initialConfig) "/federation/aggregate" "m1" "fv"
        [10, 50, 100, 150]).data = some (.survival mockSurvival) :=
  ⟨rfl, rfl⟩

/-- Claim C5 (amended): for every projectId whose built predict path does
not contain the earlier-matching substring "/federation/aggregate" (and any
modelId and feature values), predictSurvival with horizons [10, 50, 100,
150] returns a prediction payload whose atHorizons mapping has exactly the
keys "10", "50", "100", "150", every value lying in the closed interval
[0, 1]. -/
theorem predict_atHorizons_bounds (c : DemConfig) (pid mid fv : String)
    (h : includes (predictPath pid) "/federation/aggregate" = false) :
    ∃ p : PredictionData,
      (predictSurvival (some c) pid mid fv [10, 50, 100, 150]).data
          = some (.prediction p) ∧
      p.atHorizons.map Prod.fst = ["10", "50", "100", "150"] ∧
      ∀ kv ∈ p.atHorizons, 0 ≤ kv.2 ∧ kv.2 ≤ 1 := by
  refine ⟨mockPrediction, ?_, rfl, ?_⟩
  · simp [predictSurvival, fetch, getMockResponse, h, includes_predictPath]
  · intro kv hkv
    simp only [mockPrediction, List.mem_cons, List.not_mem_nil, or_false] at hkv
    rcases hkv with rfl | rfl | rfl | rfl <;> norm_num

/-- Claim C5 (witness): the amended theorem applied at concrete inputs. -/
theorem predict_atHorizons_bounds_witness :
    includes (predictPath "p1") "/federation/aggregate" = false ∧
    (∃ p : PredictionData,
      (predictSurvival (some initialConfig) "p1" "m1" "fv" [10, 50, 100, 150]).data
          = some (.prediction p) ∧
      p.atHorizons.map Prod.fst = ["10", "50", "100", "150"] ∧
      ∀ kv ∈ p.atHorizons, 0 ≤ kv.2 ∧ kv.2 ≤ 1) :=
  ⟨by decide, predict_atHorizons_bounds initialConfig "p1" "m1" "fv" (by decide)⟩

/-- Claim C6: every entry of the list returned by getComplementStats
satisfies delta_mean = failed_mean − complement_mean exactly. -/
theorem complement_delta_mean (c : DemConfig) (pid cohort cond : String)
    (fs : List String) (l : List ComplementStats)
    (h : (getComplementStats (some c) pid cohort cond fs).data
        = some (.complements l)) :
    ∀ e ∈ l, e.delta_mean = e.failed_mean - e.complement_mean := by
  have hl : l = mockStats := by
    unfold getComplementStats fetch getMockResponse at h
    split_ifs at h <;> simp_all
  subst hl
  intro e he
  simp only [mockStats, List.mem_cons, List.not_mem_nil, or_false] at he
  rcases he with rfl | rfl | rfl <;> norm_num [rpmStat, wobStat, ropStat]

/-- Claim C6 (witness): the theorem applied at concrete inputs and at the
first returned entry. -/
theorem complement_delta_mean_witness :
    (getComplementStats (some initialConfig) "p1" "coh" "failed==1" ["RPM"]).data
        = some (.complements mockStats) ∧
    rpmStat ∈ mockStats ∧
    rpmStat.delta_mean = rpmStat.failed_mean - rpmStat.complement_mean :=
  ⟨rfl, by simp [mockStats],
   complement_delta_mean initialConfig "p1" "coh" "failed==1" ["RPM"] mockStats
     rfl rpmStat (by simp [mockStats])⟩

/-- Claim C7: updateConfig merges a partial configuration field-by-field —
named fields take their new value, unnamed fields keep their prior value —
and is a no-op (returning, not throwing) when no configuration exists; in
particular updating only the region of a baseUrl-A, region-B configuration
yields baseUrl A with region C. -/
theorem updateConfig_partial_merge :
    (∀ c p, updateConfig (some c) p
        = some { baseUrl := p.baseUrl.getD c.baseUrl
                 region := p.region.getD c.region
                 accessKey := p.accessKey.getD c.accessKey
                 secretKey := p.secretKey.getD c.secretKey }) ∧
    (∀ p, updateConfig none p = none) ∧
    updateConfig
        (some { baseUrl := "A", region := "B", accessKey := "K", secretKey := "S" })
        { region := some "C" }
      = some { baseUrl := "A", region := "C", accessKey := "K", secretKey := "S" } :=
  ⟨fun _ _ => rfl, fun _ => rfl, rfl⟩

/-- Claim C8: the mock response is a deterministic function of the path
alone — the dispatch result is invariant under the request options, every
request method is invariant under all of its non-path arguments, and a
repeated aggregateData call returns the identical payload. -/
theorem mock_response_path_only :
    (∀ path o₁ o₂, getMockResponse path o₁ = getMockResponse path o₂) ∧
    (∀ cfg pid c₁ m₁ h₁ c₂ m₂ h₂,
        aggregateData cfg pid c₁ m₁ h₁ = aggregateData cfg pid c₂ m₂ h₂) ∧
    (∀ cfg pid c₁ cd₁ f₁ c₂ cd₂ f₂,
        getComplementStats cfg pid c₁ cd₁ f₁ = getComplementStats cfg pid c₂ cd₂ f₂) ∧
    (∀ cfg pid f₁ cb₁ b₁ f₂ cb₂ b₂,
        getConditionalTDigest cfg pid f₁ cb₁ b₁
          = getConditionalTDigest cfg pid f₂ cb₂ b₂) ∧
    (∀ cfg pid a₁ l₁ ce₁ fs₁ co₁ a₂ l₂ ce₂ fs₂ co₂,
        trainSurvivalModel cfg pid a₁ l₁ ce₁ fs₁ co₁
          = trainSurvivalModel cfg pid a₂ l₂ ce₂ fs₂ co₂) ∧
    (∀ cfg pid m₁ f₁ h₁ m₂ f₂ h₂,
        predictSurvival cfg pid m₁ f₁ h₁ = predictSurvival cfg pid m₂ f₂ h₂) ∧
    (∀ cfg pid coh ms hs,
        aggregateData cfg pid coh ms hs = aggregateData cfg pid coh ms hs) :=
  ⟨fun _ _ _ => rfl,
   fun cfg _ _ _ _ _ _ _ => fetch_ignores_options cfg _ _ _,
   fun cfg _ _ _ _ _ _ _ => fetch_ignores_options cfg _ _ _,
   fun cfg _ _ _ _ _ _ _ => fetch_ignores_options cfg _ _ _,
   fun cfg _ _ _ _ _ _ _ _ _ _ _ => fetch_ignores_options cfg _ _ _,
   fun cfg _ _ _ _ _ _ _ => fetch_ignores_options cfg _ _ _,
   fun _ _ _ _ _ => rfl⟩

/-- Claim C9: the constructor installs a present configuration, updateConfig
keeps a present configuration present, so after any sequence of
configuration updates the singleton is still configured: isConfigured is
true and fetch never takes its not-configured branch, always dispatching to
the mock. -/
theorem singleton_always_configured :
    demClientInit.isSome = true ∧
    (∀ (c : DemConfig) p, (updateConfig (some c) p).isSome = true) ∧
    (∀ ops : List PartialDemConfig,
        isConfigured (ops.foldl updateConfig demClientInit) = true) ∧
    (∀ (ops : List PartialDemConfig) path opts,
        fetch (ops.foldl updateConfig demClientInit) path opts
          = getMockResponse path opts) := by
  refine ⟨rfl, fun c p => rfl, ?_, ?_⟩
  · intro ops
    obtain ⟨c', hc⟩ := foldl_updateConfig_some ops initialConfig
    show isConfigured (ops.foldl updateConfig (some initialConfig)) = true
    rw [hc]
    rfl
  · intro ops path opts
    obtain ⟨c', hc⟩ := foldl_updateConfig_some ops initialConfig
    show fetch (ops.foldl updateConfig (some initialConfig)) path opts = _
    rw [hc]
    rfl

/-- Claim C10: the canned prediction is internally consistent — every
atHorizons entry reappears as a (t, s) pair of the curve at the time equal
to its key parsed as a number, the survival array starts at 1 and is
non-increasing. -/
theorem mockPrediction_consistent :
    (∀ kv ∈ mockPrediction.atHorizons,
        (parseKey kv.1, kv.2) ∈ mockPrediction.t.zip mockPrediction.s) ∧
    mockPrediction.s.head? = some 1 ∧
    List.Chain' (· ≥ ·) mockPrediction.s := by
  refine ⟨?_, ?_, ?_⟩
  · intro kv hkv
    simp only [mockPrediction, List.mem_cons, List.not_mem_nil, or_false] at hkv
    rcases hkv with rfl | rfl | rfl | rfl <;>
      norm_num [parseKey,
        show digitsToNat "10".data = 10 from rfl,
        show digitsToNat "50".data = 50 from rfl,
        show digitsToNat "100".data = 100 from rfl,
        show digitsToNat "150".data = 150 from rfl,
        mockPrediction, List.zip_cons_cons, List.mem_cons]
  · norm_num [mockPrediction]
  · simp only [mockPrediction, List.chain'_cons, List.chain'_singleton]
    norm_num

/-- Claim C10 (witness): the theorem applied at the concrete first
atHorizons entry. -/
theorem mockPrediction_consistent_witness :
    ("10", (0.97 : ℚ)) ∈ mockPrediction.atHorizons ∧
    (parseKey "10", (0.97 : ℚ)) ∈ mockPrediction.t.zip mockPrediction.s :=
  ⟨by simp [mockPrediction],
   mockPrediction_consistent.1 ("10", 0.97) (by simp [mockPrediction])⟩

end Dem
